import Mathlib

/-!
Shallow embedding of `validate_package.py` (GAP PackageDistroTools).

The script is effectful glue code: it downloads an archive, unpacks it,
resolves the unpacked directory, compares recorded SHA-256 hashes and a
file-existence check, and finally shells out to an external GAP validator.

Modelling choices:
* Console lines and filesystem/process side effects are modelled as a list
  of structured `Event`s, one constructor per `notice`/`warning` call site
  and per side-effecting operation, carrying the format arguments of the
  corresponding Python call.  Distinct call sites produce distinct
  constructors, exactly as distinct format strings produce distinct lines.
* The external collaborators that live outside this file
  (`scan_for_updates.download_archive`, `metadata`, `sha256`, `gap_exec`,
  `os.path.exists`, `os.listdir`, the directory of the script) are a
  read-only environment `Env` of abstract functions; the script only
  consumes their results.  `download_archive` and `gap_exec` are recorded
  as events carrying exactly the arguments the script passes.
* A Python `TypeError` (from `os.path.join(None, ...)`) is `Except.error`;
  the error value carries the console events emitted before the raise.
* Python's string operations `split`/`lower`/`endswith`/slicing are modelled
  by structural functions over the character list (`pySplit`, `strLower`,
  `strTake`, `strEndsWith`); Python and ASCII `lower` agree on the ASCII
  names this script handles.
-/

namespace PackageDistro

/-- The package metadata record returned by `metadata(pkg_name)`: the four
keys `validate_package.py` reads. -/
structure PkgJson where
  ArchiveURL : String
  ArchiveFormats : String
  PackageInfoSHA256 : String
  ArchiveSHA256 : String
deriving DecidableEq, Repr

/-- One observable step of the script: a console line (`notice`/`warning`
call site, with its format arguments) or a side effect (mkdir, download,
archive extraction, `gap_exec` invocation). -/
inductive Event where
  /-- `os.mkdir(unpack_dir)` in `unpack_archive`. -/
  | mkdir (dir : String)
  /-- the `download_archive(pkg_name, url, archive_fname, tries=5)` call. -/
  | download (pkg url dest : String) (tries : Nat)
  /-- notice `"{}: unpacking {} into {} ..."`. -/
  | noticeUnpacking (pkg archive dest : String)
  /-- notice `"{}: bad archive extension {}, skipping {}"`. -/
  | noticeBadExt (pkg ext archive : String)
  /-- `tarfile.open(f).extractall(dest)`. -/
  | tarExtract (archive dest : String)
  /-- `zipfile.ZipFile(f).extractall(dest)`. -/
  | zipExtract (archive dest : String)
  /-- warning `"{}: couldn't determine the unpacked archive directory!"`
  (the Python call passes no format argument, so the line is literal). -/
  | warnNoUnpackedDir
  /-- warning `"{0}: {0}/meta.yml:PackageInfoSHA256 is not the SHA256 of {1}, FAILED!"`. -/
  | warnPkgInfoSHA (pkg path : String)
  /-- warning `"{0}: {0}/meta.yml:ArchiveSHA256 is not the SHA256 of {1}, FAILED!"`. -/
  | warnArchiveSHA (pkg path : String)
  /-- warning `"{0}: the file {0}/meta.yml.old is missing, FAILED!"`. -/
  | warnMetaOldMissing (pkg : String)
  /-- the `gap_exec(cmd, gap=prog)` invocation. -/
  | gapExecCall (cmd prog : String)
  /-- warning `"{}: validation FAILED!"`. -/
  | warnValidationFailed (pkg : String)
  /-- notice `"{}: validated ok!"`. -/
  | noticeValidatedOk (pkg : String)
deriving DecidableEq, Repr

/-- The read-only outside world: metadata provider, file hashing, filesystem
queries and the external validator's exit code. -/
structure Env where
  metadata : String → PkgJson
  sha256 : String → String
  pathExists : String → Bool
  listdir : String → List String
  gapExit : String → String → Int
  dirOfThisFile : String

/-- `os.path.join(a, b)` for the relative string paths this script builds. -/
def joinPath (a b : String) : String := a ++ "/" ++ b

/-- Python `s.split(sep)` for a one-character separator, as used by the
script (`"."`, `" "`, `"/"`): split on every occurrence, keeping empty
pieces; the empty string yields `[""]`. -/
def pySplit (s : String) (sep : Char) : List String :=
  (s.data.splitOn sep).map String.mk

/-- Python `s.lower()` (the script's names are ASCII). -/
def strLower (s : String) : String := String.mk (s.data.map Char.toLower)

/-- Python `s[:n]`. -/
def strTake (s : String) (n : Nat) : String := String.mk (s.data.take n)

/-- Python `s.endswith(t)`. -/
def strEndsWith (s t : String) : Bool := t.data.isSuffixOf s.data

/-- `archive_fname.split(".")[-1]`. -/
def lastExt (archive_fname : String) : String :=
  (pySplit archive_fname '.').getLastD ""

/-- Port of `unpack_archive(unpack_dir, pkg_name, archive_fname)`: mkdir the
staging directory if absent, emit the unpacking notice, then dispatch on the
last dot-separated component of the filename (tar for `gz`/`bz2` suffixes,
zip for `zip`, otherwise a skip notice). -/
def unpack_archive (pathExists : String → Bool)
    (unpack_dir pkg_name archive_fname : String) : List Event :=
  (if pathExists unpack_dir then [] else [Event.mkdir unpack_dir]) ++
    (Event.noticeUnpacking pkg_name archive_fname unpack_dir ::
      (if strEndsWith (lastExt archive_fname) "gz" ||
          strEndsWith (lastExt archive_fname) "bz2" then
         [Event.tarExtract archive_fname unpack_dir]
       else if strEndsWith (lastExt archive_fname) "zip" then
         [Event.zipExtract archive_fname unpack_dir]
       else
         [Event.noticeBadExt pkg_name (lastExt archive_fname) archive_fname]))

/-- The loop condition in `unpacked_archive_name`:
`len(x) >= len(pkg_name) and x[: len(pkg_name)].lower() == pkg_name`. -/
def name_matches (pkg_name x : String) : Bool :=
  decide (pkg_name.length ≤ x.length) &&
    ((strLower (strTake x pkg_name.length)) == pkg_name)

/-- Port of `unpacked_archive_name(unpack_dir, pkg_name)`: return the join of
the staging dir with the first listed entry satisfying `name_matches`; if the
loop finds none, emit the warning and return `none` (Python `None`). -/
def unpacked_archive_name (listdir : String → List String)
    (unpack_dir pkg_name : String) : Option String × List Event :=
  match (listdir unpack_dir).find? (fun x => name_matches pkg_name x) with
  | some x => (some (joinPath unpack_dir x), [])
  | none => (none, [Event.warnNoUnpackedDir])

/-- `os.path.join` applied to a value that may be Python `None`: with `None`
it raises `TypeError`, modelled as `Except.error`. -/
def joinOpt : Option String → String → Except Unit String
  | none, _ => Except.error ()
  | some a, b => Except.ok (joinPath a b)

/-- Port of `validate_package(pkg_name, unpacked_name, packed_name, pkg_json)`.
`unpacked_name` is whatever `main` passes, possibly `None`; the first
statement `join(unpacked_name, "PackageInfo.g")` raises on `None`.  The three
checks run unconditionally; each failing one appends its warning and clears
the result flag.  Returns the result together with the warnings emitted. -/
def validate_package (env : Env) (pkg_name : String)
    (unpacked_name : Option String) (packed_name : String)
    (pkg_json : PkgJson) : Except Unit (Bool × List Event) := do
  let pkg_info_name ← joinOpt unpacked_name "PackageInfo.g"
  let r1 := pkg_json.PackageInfoSHA256 == env.sha256 pkg_info_name
  let w1 : List Event :=
    if r1 then [] else [Event.warnPkgInfoSHA pkg_name pkg_info_name]
  let r2 := pkg_json.ArchiveSHA256 == env.sha256 packed_name
  let w2 : List Event :=
    if r2 then [] else [Event.warnArchiveSHA pkg_name packed_name]
  let r3 := env.pathExists (joinPath pkg_name "meta.json.old")
  let w3 : List Event :=
    if r3 then [] else [Event.warnMetaOldMissing pkg_name]
  return (r1 && r2 && r3, w1 ++ w2 ++ w3)

/-- The GAP command string
`r"ValidatePackagesArchive(\"{}\", \"{}\");".format(unpacked_name, pkg_name)`;
Python formats `None` as `"None"`. -/
def gapCmd (unpacked_name : Option String) (pkg_name : String) : String :=
  "ValidatePackagesArchive(\\\"" ++
    (match unpacked_name with | some u => u | none => "None") ++
    "\\\", \\\"" ++ pkg_name ++ "\\\");"

/-- The `gap="gap {}/validate_package.g".format(dir_of_this_file)` argument. -/
def gapProg (env : Env) : String :=
  "gap " ++ env.dirOfThisFile ++ "/validate_package.g"

/-- Port of `main(pkg_name)`: build the download URL and staged archive path,
download (5 tries), unpack, resolve the unpacked directory, run the field
validation, and only on a passing validation invoke the external validator
and report the outcome line.  `Except.error` is the `TypeError` raised inside
`validate_package` when the unpacked directory was not resolved; it carries
the events emitted up to the raise. -/
def main (env : Env) (pkg_name : String) : Except (List Event) (List Event) :=
  let unpack_dir := "_unpacked_archives"
  let archive_dir := "_archives"
  let pkg_json := env.metadata pkg_name
  let fmt := (pySplit pkg_json.ArchiveFormats ' ').headD ""
  let url := pkg_json.ArchiveURL ++ fmt
  let packed_name :=
    joinPath archive_dir (((pySplit pkg_json.ArchiveURL '/').getLastD "") ++ fmt)
  let ev := [Event.download pkg_name url packed_name 5]
  let ev := ev ++ unpack_archive env.pathExists unpack_dir pkg_name packed_name
  let resolved := unpacked_archive_name env.listdir unpack_dir pkg_name
  let unpacked_name := resolved.1
  let ev := ev ++ resolved.2
  match validate_package env pkg_name unpacked_name packed_name pkg_json with
  | Except.error _ => Except.error ev
  | Except.ok (ok, warns) =>
    let ev := ev ++ warns
    if ok then
      let cmd := gapCmd unpacked_name pkg_name
      let prog := gapProg env
      let ev := ev ++ [Event.gapExecCall cmd prog]
      if env.gapExit cmd prog != 0 then
        Except.ok (ev ++ [Event.warnValidationFailed pkg_name])
      else
        Except.ok (ev ++ [Event.noticeValidatedOk pkg_name])
    else
      Except.ok ev

/-- Port of the `__main__` block: `for i in range(1, len(sys.argv)):
main(sys.argv[i])`.  An uncaught exception (`Except.error`) aborts the loop;
the `Bool` records whether the whole batch ran to completion. -/
def runMain (env : Env) : List String → List Event × Bool
  | [] => ([], true)
  | p :: rest =>
    match main env p with
    | Except.ok e =>
      let r := runMain env rest
      (e ++ r.1, r.2)
    | Except.error e => (e, false)

/-! ## Spec-side definition for the directory-resolution refinement claim -/

/-- Spec-side predicate, following the spec's words for §4.3: the entry's
name, compared case-insensitively, starts with the package name. -/
def spec_ci_starts_with (pkg_name x : String) : Bool :=
  decide (pkg_name.length ≤ x.length) &&
    ((strLower (strTake x pkg_name.length)) == strLower pkg_name)

/-- Spec-side directory resolution, following the spec's words: the first
staging-directory entry that case-insensitively starts with the package
name. -/
def spec_resolve (listdir : String → List String)
    (unpack_dir pkg_name : String) : Option String :=
  ((listdir unpack_dir).find? (fun x => spec_ci_starts_with pkg_name x)).map
    (joinPath unpack_dir)

/-! ## Concrete environments for evaluating the embedding -/

/-- A concrete environment: every package has `ArchiveURL = "u/w-1"`,
`ArchiveFormats = ".tar.gz .zip"` and recorded hashes `"h1"`/`"h2"`, which are
the actual hashes of `_unpacked_archives/w-1/PackageInfo.g` and of
`_archives/w-1.tar.gz`.  `metaOld` controls whether `w/meta.json.old` exists,
`ls` is the staging-directory listing, `code` the external validator's exit
code. -/
def testEnv (metaOld : Bool) (ls : List String) (code : Int) : Env where
  metadata := fun _ =>
    { ArchiveURL := "u/w-1", ArchiveFormats := ".tar.gz .zip",
      PackageInfoSHA256 := "h1", ArchiveSHA256 := "h2" }
  sha256 := fun p =>
    if p == "_unpacked_archives/w-1/PackageInfo.g" then "h1"
    else if p == "_archives/w-1.tar.gz" then "h2" else "h0"
  pathExists := fun p => p == "w/meta.json.old" && metaOld
  listdir := fun _ => ls
  gapExit := fun _ _ => code
  dirOfThisFile := "_tools"

/-- The metadata record served by `testEnv`. -/
def testJson : PkgJson :=
  { ArchiveURL := "u/w-1", ArchiveFormats := ".tar.gz .zip",
    PackageInfoSHA256 := "h1", ArchiveSHA256 := "h2" }

/-! ## The intermediate values of `main`, as named definitions -/

/-- The metadata record `main` reads. -/
def mainPkgJson (env : Env) (pkg_name : String) : PkgJson := env.metadata pkg_name

/-- `fmt`, the first space-separated entry of `ArchiveFormats`. -/
def mainFmt (env : Env) (pkg_name : String) : String :=
  (pySplit (mainPkgJson env pkg_name).ArchiveFormats ' ').headD ""

/-- `url`, the download URL `main` builds. -/
def mainUrl (env : Env) (pkg_name : String) : String :=
  (mainPkgJson env pkg_name).ArchiveURL ++ mainFmt env pkg_name

/-- `packed_name`, the staged archive path `main` builds. -/
def mainPackedName (env : Env) (pkg_name : String) : String :=
  joinPath "_archives"
    (((pySplit (mainPkgJson env pkg_name).ArchiveURL '/').getLastD "") ++
      mainFmt env pkg_name)

/-- The directory resolution `main` performs. -/
def mainResolve (env : Env) (pkg_name : String) : Option String × List Event :=
  unpacked_archive_name env.listdir "_unpacked_archives" pkg_name

/-- The events `main` emits up to and including directory resolution. -/
def mainPre (env : Env) (pkg_name : String) : List Event :=
  Event.download pkg_name (mainUrl env pkg_name) (mainPackedName env pkg_name) 5 ::
    (unpack_archive env.pathExists "_unpacked_archives" pkg_name
        (mainPackedName env pkg_name) ++
      (mainResolve env pkg_name).2)

/-- The field-validation call `main` makes. -/
def mainValidate (env : Env) (pkg_name : String) : Except Unit (Bool × List Event) :=
  validate_package env pkg_name (mainResolve env pkg_name).1
    (mainPackedName env pkg_name) (mainPkgJson env pkg_name)

/-- Whether the three-field validation passed (`false` also when it raised). -/
def mainFieldPass (env : Env) (pkg_name : String) : Bool :=
  match mainValidate env pkg_name with
  | Except.ok (r, _) => r
  | Except.error _ => false

/-- The GAP command string `main` passes to `gap_exec`. -/
def mainGapCmd (env : Env) (pkg_name : String) : String :=
  gapCmd (mainResolve env pkg_name).1 pkg_name

/-- All events a `main` run emits, whether it returns or raises. -/
def mainTrace (env : Env) (pkg_name : String) : List Event :=
  match main env pkg_name with
  | Except.ok e => e
  | Except.error e => e

/-! ## Helper lemmas -/

/-- The value of `validate_package` on a resolved (non-`None`) unpacked
directory, spelled out. -/
lemma validate_package_some_eq (env : Env) (pkg_name u packed_name : String)
    (pkg_json : PkgJson) :
    validate_package env pkg_name (some u) packed_name pkg_json =
      Except.ok
        ((pkg_json.PackageInfoSHA256 == env.sha256 (joinPath u "PackageInfo.g")) &&
            (pkg_json.ArchiveSHA256 == env.sha256 packed_name) &&
            env.pathExists (joinPath pkg_name "meta.json.old"),
          (if pkg_json.PackageInfoSHA256 == env.sha256 (joinPath u "PackageInfo.g")
            then []
            else [Event.warnPkgInfoSHA pkg_name (joinPath u "PackageInfo.g")]) ++
          (if pkg_json.ArchiveSHA256 == env.sha256 packed_name
            then []
            else [Event.warnArchiveSHA pkg_name packed_name]) ++
          (if env.pathExists (joinPath pkg_name "meta.json.old")
            then []
            else [Event.warnMetaOldMissing pkg_name])) := rfl

/-- `validate_package` on a `None` unpacked directory raises (C10 helper). -/
lemma validate_package_none_eq (env : Env) (pkg_name packed_name : String)
    (pkg_json : PkgJson) :
    validate_package env pkg_name none packed_name pkg_json =
      Except.error () := rfl

/-- `main`, restated through the named intermediate values: the error case
carries the pre-validation events, the ok case appends the validation
warnings and, on a pass, the `gap_exec` call and the outcome line. -/
lemma main_eq (env : Env) (pkg_name : String) :
    main env pkg_name =
      match mainValidate env pkg_name with
      | Except.error _ => Except.error (mainPre env pkg_name)
      | Except.ok (ok, warns) =>
        if ok then
          if env.gapExit (mainGapCmd env pkg_name) (gapProg env) != 0 then
            Except.ok (mainPre env pkg_name ++ warns ++
              [Event.gapExecCall (mainGapCmd env pkg_name) (gapProg env),
                Event.warnValidationFailed pkg_name])
          else
            Except.ok (mainPre env pkg_name ++ warns ++
              [Event.gapExecCall (mainGapCmd env pkg_name) (gapProg env),
                Event.noticeValidatedOk pkg_name])
        else Except.ok (mainPre env pkg_name ++ warns) := by
  simp only [main, mainValidate, mainPre, mainGapCmd, mainResolve, mainUrl,
    mainPackedName, mainFmt, mainPkgJson]
  cases hv : validate_package env pkg_name
      (unpacked_archive_name env.listdir "_unpacked_archives" pkg_name).1
      (joinPath "_archives"
        (((pySplit (env.metadata pkg_name).ArchiveURL '/').getLastD "") ++
          (pySplit (env.metadata pkg_name).ArchiveFormats ' ').headD ""))
      (env.metadata pkg_name) with
  | error e => simp
  | ok p =>
    obtain ⟨ok, warns⟩ := p
    cases ok <;> [skip; cases hg : env.gapExit
      (gapCmd (unpacked_archive_name env.listdir "_unpacked_archives" pkg_name).1
        pkg_name) (gapProg env) != 0] <;> simp_all [List.append_assoc]

/-- Every event of `unpack_archive` is one of its five call sites. -/
lemma mem_unpack_archive_cases (pathExists : String → Bool)
    (unpack_dir pkg_name archive_fname : String) (e : Event)
    (he : e ∈ unpack_archive pathExists unpack_dir pkg_name archive_fname) :
    e = Event.mkdir unpack_dir ∨
      e = Event.noticeUnpacking pkg_name archive_fname unpack_dir ∨
      e = Event.tarExtract archive_fname unpack_dir ∨
      e = Event.zipExtract archive_fname unpack_dir ∨
      e = Event.noticeBadExt pkg_name (lastExt archive_fname) archive_fname := by
  rw [unpack_archive] at he
  split_ifs at he <;> simp_all <;> tauto

/-- Every event `main` emits before validation is one of the pre-validation
call sites. -/
lemma mem_mainPre_cases (env : Env) (pkg_name : String) (e : Event)
    (he : e ∈ mainPre env pkg_name) :
    e = Event.download pkg_name (mainUrl env pkg_name) (mainPackedName env pkg_name) 5 ∨
      e = Event.mkdir "_unpacked_archives" ∨
      e = Event.noticeUnpacking pkg_name (mainPackedName env pkg_name) "_unpacked_archives" ∨
      e = Event.tarExtract (mainPackedName env pkg_name) "_unpacked_archives" ∨
      e = Event.zipExtract (mainPackedName env pkg_name) "_unpacked_archives" ∨
      e = Event.noticeBadExt pkg_name (lastExt (mainPackedName env pkg_name))
            (mainPackedName env pkg_name) ∨
      e = Event.warnNoUnpackedDir := by
  rw [mainPre] at he
  simp only [List.mem_cons, List.mem_append] at he
  rcases he with h | h | h
  · tauto
  · have := mem_unpack_archive_cases env.pathExists "_unpacked_archives" pkg_name
      (mainPackedName env pkg_name) e h
    tauto
  · rw [mainResolve, unpacked_archive_name] at h
    cases hf : (env.listdir "_unpacked_archives").find?
        (fun x => name_matches pkg_name x) <;> simp [hf] at h
    tauto

/-- Every warning of a non-raising `validate_package` call is one of its
three check warnings. -/
lemma validate_warns_cases (env : Env) (pkg_name u packed_name : String)
    (pkg_json : PkgJson) (res : Bool) (warns : List Event) (e : Event)
    (h : validate_package env pkg_name (some u) packed_name pkg_json =
          Except.ok (res, warns)) (he : e ∈ warns) :
    e = Event.warnPkgInfoSHA pkg_name (joinPath u "PackageInfo.g") ∨
      e = Event.warnArchiveSHA pkg_name packed_name ∨
      e = Event.warnMetaOldMissing pkg_name := by
  rw [validate_package_some_eq] at h
  injection h with h
  injection h with hres hwarns
  subst hwarns
  split_ifs at he <;> simp_all <;> tauto

/-- If the validation call of `main` does not raise, the directory was
resolved. -/
lemma mainResolve_isSome_of_validate_ok (env : Env) (pkg_name : String)
    (p : Bool × List Event) (h : mainValidate env pkg_name = Except.ok p) :
    ∃ u, (mainResolve env pkg_name).1 = some u := by
  rw [mainValidate] at h
  cases hu : (mainResolve env pkg_name).1 with
  | none => rw [hu, validate_package_none_eq] at h; exact absurd h (by simp)
  | some u => exact ⟨u, rfl⟩

/-! ## Claim theorems -/

/-- C1: `validate_package` (on a resolved unpacked directory) returns pass
iff the record's `PackageInfoSHA256` is the SHA-256 of
`<unpacked>/PackageInfo.g`, the record's `ArchiveSHA256` is the SHA-256 of
the archive file, and `<package>/meta.json.old` exists. -/
theorem validate_pass_iff (env : Env) (pkg_name u packed_name : String)
    (pkg_json : PkgJson) (res : Bool) (warns : List Event)
    (h : validate_package env pkg_name (some u) packed_name pkg_json =
          Except.ok (res, warns)) :
    res = true ↔
      (pkg_json.PackageInfoSHA256 = env.sha256 (joinPath u "PackageInfo.g") ∧
        pkg_json.ArchiveSHA256 = env.sha256 packed_name ∧
        env.pathExists (joinPath pkg_name "meta.json.old") = true) := by
  rw [validate_package_some_eq] at h
  injection h with h
  injection h with hres hwarns
  subst hres
  simp [Bool.and_eq_true, and_assoc]

/-- C1 witness: the passing case at a concrete input. -/
theorem validate_pass_iff_witness :
    true = true ↔
      (testJson.PackageInfoSHA256 =
          (testEnv true ["w-1"] 0).sha256 (joinPath "_unpacked_archives/w-1" "PackageInfo.g") ∧
        testJson.ArchiveSHA256 = (testEnv true ["w-1"] 0).sha256 "_archives/w-1.tar.gz" ∧
        (testEnv true ["w-1"] 0).pathExists (joinPath "w" "meta.json.old") = true) :=
  validate_pass_iff (testEnv true ["w-1"] 0) "w" "_unpacked_archives/w-1"
    "_archives/w-1.tar.gz" testJson true [] (by rfl)

/-- C3: the three checks are independent and never short-circuit: each
check's warning appears in the emitted warnings iff that check fails,
irrespective of the other two — so all three warnings co-occur when all
three checks fail. -/
theorem validate_checks_independent (env : Env) (pkg_name u packed_name : String)
    (pkg_json : PkgJson) (res : Bool) (warns : List Event)
    (h : validate_package env pkg_name (some u) packed_name pkg_json =
          Except.ok (res, warns)) :
    (Event.warnPkgInfoSHA pkg_name (joinPath u "PackageInfo.g") ∈ warns ↔
        pkg_json.PackageInfoSHA256 ≠ env.sha256 (joinPath u "PackageInfo.g")) ∧
    (Event.warnArchiveSHA pkg_name packed_name ∈ warns ↔
        pkg_json.ArchiveSHA256 ≠ env.sha256 packed_name) ∧
    (Event.warnMetaOldMissing pkg_name ∈ warns ↔
        env.pathExists (joinPath pkg_name "meta.json.old") = false) := by
  rw [validate_package_some_eq] at h
  injection h with h
  injection h with hres hwarns
  subst hwarns
  split_ifs with h1 h2 h3 <;> simp_all

/-- C3 witness: all three checks failing at a concrete input — all three
warnings co-occur. -/
theorem validate_checks_independent_witness :
    (Event.warnPkgInfoSHA "w" (joinPath "x" "PackageInfo.g") ∈
        [Event.warnPkgInfoSHA "w" (joinPath "x" "PackageInfo.g"),
          Event.warnArchiveSHA "w" "y", Event.warnMetaOldMissing "w"] ↔
        testJson.PackageInfoSHA256 ≠ (testEnv false [] 0).sha256 (joinPath "x" "PackageInfo.g")) ∧
    (Event.warnArchiveSHA "w" "y" ∈
        [Event.warnPkgInfoSHA "w" (joinPath "x" "PackageInfo.g"),
          Event.warnArchiveSHA "w" "y", Event.warnMetaOldMissing "w"] ↔
        testJson.ArchiveSHA256 ≠ (testEnv false [] 0).sha256 "y") ∧
    (Event.warnMetaOldMissing "w" ∈
        [Event.warnPkgInfoSHA "w" (joinPath "x" "PackageInfo.g"),
          Event.warnArchiveSHA "w" "y", Event.warnMetaOldMissing "w"] ↔
        (testEnv false [] 0).pathExists (joinPath "w" "meta.json.old") = false) :=
  validate_checks_independent (testEnv false [] 0) "w" "x" "y" testJson false
    [Event.warnPkgInfoSHA "w" (joinPath "x" "PackageInfo.g"),
      Event.warnArchiveSHA "w" "y", Event.warnMetaOldMissing "w"] (by rfl)

/-- C5 counterexample: the resolver lowercases the entry's prefix but compares
it with the package name as written, so it is not case-insensitive in the
package name.  For package name `"A"` and listing `["A"]`, the spec's rule
resolves `_unpacked_archives/A`, but the code resolves nothing. -/
theorem resolve_case_insensitive_cex :
    spec_resolve (fun _ => ["A"]) "_unpacked_archives" "A" =
        some "_unpacked_archives/A" ∧
      (unpacked_archive_name (fun _ => ["A"]) "_unpacked_archives" "A").1 =
        none := by
  constructor <;> decide

/-- C5 (amended): for a lowercase package name the resolver returns exactly
the first entry that case-insensitively starts with the package name (the
spec's rule); and whenever it resolves nothing it emits the warning and
yields no usable result. -/
theorem resolve_first_lowercase_match (listdir : String → List String)
    (unpack_dir pkg_name : String) (h : strLower pkg_name = pkg_name) :
    (unpacked_archive_name listdir unpack_dir pkg_name).1 =
        spec_resolve listdir unpack_dir pkg_name ∧
      ((unpacked_archive_name listdir unpack_dir pkg_name).1 = none →
        (unpacked_archive_name listdir unpack_dir pkg_name).2 =
          [Event.warnNoUnpackedDir]) := by
  have hp : (fun x => name_matches pkg_name x) =
      (fun x => spec_ci_starts_with pkg_name x) := by
    funext x
    simp [name_matches, spec_ci_starts_with, h]
  constructor
  · rw [unpacked_archive_name, spec_resolve, hp]
    cases hf : (listdir unpack_dir).find?
        (fun x => spec_ci_starts_with pkg_name x) <;> simp
  · intro hnone
    rw [unpacked_archive_name] at hnone ⊢
    cases hf : (listdir unpack_dir).find? (fun x => name_matches pkg_name x) <;>
      simp [hf] at hnone ⊢

/-- C5 witness: a lowercase package name at a concrete listing. -/
theorem resolve_first_lowercase_match_witness :
    (unpacked_archive_name (fun _ => ["w-1"]) "_unpacked_archives" "w").1 =
        spec_resolve (fun _ => ["w-1"]) "_unpacked_archives" "w" ∧
      ((unpacked_archive_name (fun _ => ["w-1"]) "_unpacked_archives" "w").1 = none →
        (unpacked_archive_name (fun _ => ["w-1"]) "_unpacked_archives" "w").2 =
          [Event.warnNoUnpackedDir]) :=
  resolve_first_lowercase_match (fun _ => ["w-1"]) "_unpacked_archives" "w" (by decide)

/-- C6: extraction dispatches on the last dot-separated component of the
archive filename: a tar extraction happens iff it ends in `gz` or `bz2`, a
zip extraction iff it ends in `zip` (and not in `gz`/`bz2`), and for any
other extension nothing is extracted at all and the skip notice is
emitted. -/
theorem unpack_dispatch_by_suffix (pathExists : String → Bool)
    (unpack_dir pkg_name archive_fname : String) :
    (Event.tarExtract archive_fname unpack_dir ∈
        unpack_archive pathExists unpack_dir pkg_name archive_fname ↔
      (strEndsWith (lastExt archive_fname) "gz" = true ∨
        strEndsWith (lastExt archive_fname) "bz2" = true)) ∧
    (Event.zipExtract archive_fname unpack_dir ∈
        unpack_archive pathExists unpack_dir pkg_name archive_fname ↔
      (strEndsWith (lastExt archive_fname) "gz" = false ∧
        strEndsWith (lastExt archive_fname) "bz2" = false ∧
        strEndsWith (lastExt archive_fname) "zip" = true)) ∧
    ((strEndsWith (lastExt archive_fname) "gz" = false ∧
        strEndsWith (lastExt archive_fname) "bz2" = false ∧
        strEndsWith (lastExt archive_fname) "zip" = false) →
      (Event.noticeBadExt pkg_name (lastExt archive_fname) archive_fname ∈
          unpack_archive pathExists unpack_dir pkg_name archive_fname ∧
        ∀ a d, Event.tarExtract a d ∉
            unpack_archive pathExists unpack_dir pkg_name archive_fname ∧
          Event.zipExtract a d ∉
            unpack_archive pathExists unpack_dir pkg_name archive_fname)) := by
  rw [unpack_archive]
  cases hgz : strEndsWith (lastExt archive_fname) "gz" <;>
    cases hbz : strEndsWith (lastExt archive_fname) "bz2" <;>
      cases hzip : strEndsWith (lastExt archive_fname) "zip" <;>
        cases hpe : pathExists unpack_dir <;> simp_all

/-- C9: with an unrecognized extension, `unpack_archive` still creates the
staging directory when absent and emits the unpacking notice, in that order,
followed only by the skip notice — no extraction and no other effect. -/
theorem unpack_skip_frame (pathExists : String → Bool)
    (unpack_dir pkg_name archive_fname : String)
    (hgz : strEndsWith (lastExt archive_fname) "gz" = false)
    (hbz : strEndsWith (lastExt archive_fname) "bz2" = false)
    (hzip : strEndsWith (lastExt archive_fname) "zip" = false) :
    unpack_archive pathExists unpack_dir pkg_name archive_fname =
      (if pathExists unpack_dir then [] else [Event.mkdir unpack_dir]) ++
        [Event.noticeUnpacking pkg_name archive_fname unpack_dir,
          Event.noticeBadExt pkg_name (lastExt archive_fname) archive_fname] := by
  rw [unpack_archive, hgz, hbz, hzip]
  rfl

/-- C9 witness: a `.rar` archive against an absent staging directory. -/
theorem unpack_skip_frame_witness :
    unpack_archive (fun _ => false) "_unpacked_archives" "w" "_archives/w-1.rar" =
      (if (fun _ => false) "_unpacked_archives" then []
        else [Event.mkdir "_unpacked_archives"]) ++
        [Event.noticeUnpacking "w" "_archives/w-1.rar" "_unpacked_archives",
          Event.noticeBadExt "w" (lastExt "_archives/w-1.rar") "_archives/w-1.rar"] :=
  unpack_skip_frame (fun _ => false) "_unpacked_archives" "w" "_archives/w-1.rar"
    (by decide) (by decide) (by decide)

/-- C2 counterexample: a concrete run (package `w`, archive staged and
hashes matching, but `w/meta.json.old` absent) in which the three-field
validation fails and `main` prints no `"w: validation FAILED!"` line and no
`"w: validated ok!"` line at all — only the per-check warning. -/
theorem main_no_failed_line_cex :
    main (testEnv false ["w-1"] 0) "w" =
        Except.ok
          [Event.download "w" "u/w-1.tar.gz" "_archives/w-1.tar.gz" 5,
            Event.mkdir "_unpacked_archives",
            Event.noticeUnpacking "w" "_archives/w-1.tar.gz" "_unpacked_archives",
            Event.tarExtract "_archives/w-1.tar.gz" "_unpacked_archives",
            Event.warnMetaOldMissing "w"] ∧
      Event.warnValidationFailed "w" ∉
        [Event.download "w" "u/w-1.tar.gz" "_archives/w-1.tar.gz" 5,
          Event.mkdir "_unpacked_archives",
          Event.noticeUnpacking "w" "_archives/w-1.tar.gz" "_unpacked_archives",
          Event.tarExtract "_archives/w-1.tar.gz" "_unpacked_archives",
          Event.warnMetaOldMissing "w"] ∧
      Event.noticeValidatedOk "w" ∉
        [Event.download "w" "u/w-1.tar.gz" "_archives/w-1.tar.gz" 5,
          Event.mkdir "_unpacked_archives",
          Event.noticeUnpacking "w" "_archives/w-1.tar.gz" "_unpacked_archives",
          Event.tarExtract "_archives/w-1.tar.gz" "_unpacked_archives",
          Event.warnMetaOldMissing "w"] := by
  refine ⟨by rfl, by decide, by decide⟩

/-- C2 (amended): an outcome line is printed exactly when the three-field
validation passes — then exactly one is printed, `"validation FAILED!"` iff
the external validator exits non-zero; when the field validation fails, no
outcome line appears in the console output. -/
theorem main_outcome_only_after_field_pass (env : Env) (pkg_name : String)
    (evts : List Event) (h : main env pkg_name = Except.ok evts) :
    (evts.count (Event.warnValidationFailed pkg_name) +
        evts.count (Event.noticeValidatedOk pkg_name) =
      if mainFieldPass env pkg_name then 1 else 0) ∧
    (mainFieldPass env pkg_name = true →
      (Event.warnValidationFailed pkg_name ∈ evts ↔
        env.gapExit (mainGapCmd env pkg_name) (gapProg env) ≠ 0)) := by
  rw [main_eq] at h
  cases hv : mainValidate env pkg_name with
  | error e => rw [hv] at h; exact absurd h (by simp)
  | ok p =>
    obtain ⟨okb, warns⟩ := p
    obtain ⟨u, hu⟩ := mainResolve_isSome_of_validate_ok env pkg_name _ hv
    have hvp : validate_package env pkg_name (some u) (mainPackedName env pkg_name)
        (mainPkgJson env pkg_name) = Except.ok (okb, warns) := by
      rw [mainValidate, hu] at hv; exact hv
    have hpass : mainFieldPass env pkg_name = okb := by
      rw [mainFieldPass, hv]
    have hpre0 : Event.warnValidationFailed pkg_name ∉ mainPre env pkg_name := by
      intro hm
      rcases mem_mainPre_cases env pkg_name _ hm with h1 | h1 | h1 | h1 | h1 | h1 | h1 <;>
        simp at h1
    have hpre1 : Event.noticeValidatedOk pkg_name ∉ mainPre env pkg_name := by
      intro hm
      rcases mem_mainPre_cases env pkg_name _ hm with h1 | h1 | h1 | h1 | h1 | h1 | h1 <;>
        simp at h1
    have hw0 : Event.warnValidationFailed pkg_name ∉ warns := by
      intro hm
      rcases validate_warns_cases env pkg_name u _ _ _ _ _ hvp hm with h1 | h1 | h1 <;>
        simp at h1
    have hw1 : Event.noticeValidatedOk pkg_name ∉ warns := by
      intro hm
      rcases validate_warns_cases env pkg_name u _ _ _ _ _ hvp hm with h1 | h1 | h1 <;>
        simp at h1
    rw [hv] at h
    cases okb with
    | false =>
      simp only [Bool.false_eq_true, if_false] at h
      injection h with h
      subst h
      rw [hpass]
      refine ⟨?_, by simp⟩
      simp [List.count_append, List.count_eq_zero.mpr hpre0,
        List.count_eq_zero.mpr hpre1, List.count_eq_zero.mpr hw0,
        List.count_eq_zero.mpr hw1]
    | true =>
      rw [hpass]
      by_cases hg : env.gapExit (mainGapCmd env pkg_name) (gapProg env) = 0
      · simp only [hg, bne_self_eq_false, Bool.false_eq_true, if_false, if_true] at h
        injection h with h
        subst h
        constructor
        · simp [List.count_append, List.count_eq_zero.mpr hpre0,
            List.count_eq_zero.mpr hpre1, List.count_eq_zero.mpr hw0,
            List.count_eq_zero.mpr hw1]
        · intro _
          simp [hg, hpre0, hw0]
      · have hgb : (env.gapExit (mainGapCmd env pkg_name) (gapProg env) != 0) = true := by
          simpa using hg
        simp only [hgb, if_true] at h
        injection h with h
        subst h
        constructor
        · simp [List.count_append, List.count_eq_zero.mpr hpre0,
            List.count_eq_zero.mpr hpre1, List.count_eq_zero.mpr hw0,
            List.count_eq_zero.mpr hw1]
        · intro _
          simp [hg]

/-- C2 witness: a concrete passing validation with a non-zero validator exit
code — exactly one outcome line, the `"validation FAILED!"` one. -/
theorem main_outcome_only_after_field_pass_witness :
    ([Event.download "w" "u/w-1.tar.gz" "_archives/w-1.tar.gz" 5,
        Event.mkdir "_unpacked_archives",
        Event.noticeUnpacking "w" "_archives/w-1.tar.gz" "_unpacked_archives",
        Event.tarExtract "_archives/w-1.tar.gz" "_unpacked_archives",
        Event.gapExecCall
          "ValidatePackagesArchive(\\\"_unpacked_archives/w-1\\\", \\\"w\\\");"
          "gap _tools/validate_package.g",
        Event.warnValidationFailed "w"].count (Event.warnValidationFailed "w") +
        [Event.download "w" "u/w-1.tar.gz" "_archives/w-1.tar.gz" 5,
          Event.mkdir "_unpacked_archives",
          Event.noticeUnpacking "w" "_archives/w-1.tar.gz" "_unpacked_archives",
          Event.tarExtract "_archives/w-1.tar.gz" "_unpacked_archives",
          Event.gapExecCall
            "ValidatePackagesArchive(\\\"_unpacked_archives/w-1\\\", \\\"w\\\");"
            "gap _tools/validate_package.g",
          Event.warnValidationFailed "w"].count (Event.noticeValidatedOk "w") =
      if mainFieldPass (testEnv true ["w-1"] 7) "w" then 1 else 0) ∧
    (mainFieldPass (testEnv true ["w-1"] 7) "w" = true →
      (Event.warnValidationFailed "w" ∈
          [Event.download "w" "u/w-1.tar.gz" "_archives/w-1.tar.gz" 5,
            Event.mkdir "_unpacked_archives",
            Event.noticeUnpacking "w" "_archives/w-1.tar.gz" "_unpacked_archives",
            Event.tarExtract "_archives/w-1.tar.gz" "_unpacked_archives",
            Event.gapExecCall
              "ValidatePackagesArchive(\\\"_unpacked_archives/w-1\\\", \\\"w\\\");"
              "gap _tools/validate_package.g",
            Event.warnValidationFailed "w"] ↔
        (testEnv true ["w-1"] 7).gapExit (mainGapCmd (testEnv true ["w-1"] 7) "w")
            (gapProg (testEnv true ["w-1"] 7)) ≠ 0)) :=
  main_outcome_only_after_field_pass (testEnv true ["w-1"] 7) "w"
    [Event.download "w" "u/w-1.tar.gz" "_archives/w-1.tar.gz" 5,
      Event.mkdir "_unpacked_archives",
      Event.noticeUnpacking "w" "_archives/w-1.tar.gz" "_unpacked_archives",
      Event.tarExtract "_archives/w-1.tar.gz" "_unpacked_archives",
      Event.gapExecCall
        "ValidatePackagesArchive(\\\"_unpacked_archives/w-1\\\", \\\"w\\\");"
        "gap _tools/validate_package.g",
      Event.warnValidationFailed "w"] (by rfl)

/-- C4: the external validator is invoked iff the three-field validation
passed; when invoked, a non-zero exit code yields the `"validation FAILED!"`
report (and no ok report), a zero exit code the `"validated ok!"` report
(and no failure report). -/
theorem gap_invoked_iff_field_pass (env : Env) (pkg_name : String)
    (evts : List Event) (h : main env pkg_name = Except.ok evts) :
    ((∃ c p, Event.gapExecCall c p ∈ evts) ↔ mainFieldPass env pkg_name = true) ∧
    (mainFieldPass env pkg_name = true →
      ((env.gapExit (mainGapCmd env pkg_name) (gapProg env) ≠ 0 →
          Event.warnValidationFailed pkg_name ∈ evts ∧
            Event.noticeValidatedOk pkg_name ∉ evts) ∧
        (env.gapExit (mainGapCmd env pkg_name) (gapProg env) = 0 →
          Event.noticeValidatedOk pkg_name ∈ evts ∧
            Event.warnValidationFailed pkg_name ∉ evts))) := by
  rw [main_eq] at h
  cases hv : mainValidate env pkg_name with
  | error e => rw [hv] at h; exact absurd h (by simp)
  | ok p =>
    obtain ⟨okb, warns⟩ := p
    obtain ⟨u, hu⟩ := mainResolve_isSome_of_validate_ok env pkg_name _ hv
    have hvp : validate_package env pkg_name (some u) (mainPackedName env pkg_name)
        (mainPkgJson env pkg_name) = Except.ok (okb, warns) := by
      rw [mainValidate, hu] at hv; exact hv
    have hpass : mainFieldPass env pkg_name = okb := by
      rw [mainFieldPass, hv]
    have hpreG : ∀ c p, Event.gapExecCall c p ∉ mainPre env pkg_name := by
      intro c p hm
      rcases mem_mainPre_cases env pkg_name _ hm with h1 | h1 | h1 | h1 | h1 | h1 | h1 <;>
        simp at h1
    have hpre0 : Event.warnValidationFailed pkg_name ∉ mainPre env pkg_name := by
      intro hm
      rcases mem_mainPre_cases env pkg_name _ hm with h1 | h1 | h1 | h1 | h1 | h1 | h1 <;>
        simp at h1
    have hpre1 : Event.noticeValidatedOk pkg_name ∉ mainPre env pkg_name := by
      intro hm
      rcases mem_mainPre_cases env pkg_name _ hm with h1 | h1 | h1 | h1 | h1 | h1 | h1 <;>
        simp at h1
    have hwG : ∀ c p, Event.gapExecCall c p ∉ warns := by
      intro c p hm
      rcases validate_warns_cases env pkg_name u _ _ _ _ _ hvp hm with h1 | h1 | h1 <;>
        simp at h1
    have hw0 : Event.warnValidationFailed pkg_name ∉ warns := by
      intro hm
      rcases validate_warns_cases env pkg_name u _ _ _ _ _ hvp hm with h1 | h1 | h1 <;>
        simp at h1
    have hw1 : Event.noticeValidatedOk pkg_name ∉ warns := by
      intro hm
      rcases validate_warns_cases env pkg_name u _ _ _ _ _ hvp hm with h1 | h1 | h1 <;>
        simp at h1
    rw [hv] at h
    cases okb with
    | false =>
      simp only [Bool.false_eq_true, if_false] at h
      injection h with h
      subst h
      rw [hpass]
      refine ⟨?_, by simp⟩
      simp only [List.mem_append, iff_false, Bool.false_eq_true]
      push_neg
      intro c p
      exact ⟨fun hc => hpreG c p hc, fun hc => hwG c p hc⟩
    | true =>
      rw [hpass]
      by_cases hg : env.gapExit (mainGapCmd env pkg_name) (gapProg env) = 0
      · simp only [hg, bne_self_eq_false, Bool.false_eq_true, if_false, if_true] at h
        injection h with h
        subst h
        refine ⟨⟨fun _ => rfl, fun _ => ⟨mainGapCmd env pkg_name, gapProg env, by simp⟩⟩,
          fun _ => ⟨fun hne => absurd hg hne, fun _ => ?_⟩⟩
        simp [hpre0, hw0, hpre1, hw1]
      · have hgb : (env.gapExit (mainGapCmd env pkg_name) (gapProg env) != 0) = true := by
          simpa using hg
        simp only [hgb, if_true] at h
        injection h with h
        subst h
        refine ⟨⟨fun _ => rfl, fun _ => ⟨mainGapCmd env pkg_name, gapProg env, by simp⟩⟩,
          fun _ => ⟨fun _ => ?_, fun he => absurd he hg⟩⟩
        simp [hpre0, hw0, hpre1, hw1]

/-- C4 witness: a concrete passing validation with exit code `0` — the
validator is invoked and the ok line reported. -/
theorem gap_invoked_iff_field_pass_witness :
    ((∃ c p, Event.gapExecCall c p ∈
        [Event.download "w" "u/w-1.tar.gz" "_archives/w-1.tar.gz" 5,
          Event.mkdir "_unpacked_archives",
          Event.noticeUnpacking "w" "_archives/w-1.tar.gz" "_unpacked_archives",
          Event.tarExtract "_archives/w-1.tar.gz" "_unpacked_archives",
          Event.gapExecCall
            "ValidatePackagesArchive(\\\"_unpacked_archives/w-1\\\", \\\"w\\\");"
            "gap _tools/validate_package.g",
          Event.noticeValidatedOk "w"]) ↔
      mainFieldPass (testEnv true ["w-1"] 0) "w" = true) ∧
    (mainFieldPass (testEnv true ["w-1"] 0) "w" = true →
      (((testEnv true ["w-1"] 0).gapExit (mainGapCmd (testEnv true ["w-1"] 0) "w")
            (gapProg (testEnv true ["w-1"] 0)) ≠ 0 →
          Event.warnValidationFailed "w" ∈
            [Event.download "w" "u/w-1.tar.gz" "_archives/w-1.tar.gz" 5,
              Event.mkdir "_unpacked_archives",
              Event.noticeUnpacking "w" "_archives/w-1.tar.gz" "_unpacked_archives",
              Event.tarExtract "_archives/w-1.tar.gz" "_unpacked_archives",
              Event.gapExecCall
                "ValidatePackagesArchive(\\\"_unpacked_archives/w-1\\\", \\\"w\\\");"
                "gap _tools/validate_package.g",
              Event.noticeValidatedOk "w"] ∧
            Event.noticeValidatedOk "w" ∉
              [Event.download "w" "u/w-1.tar.gz" "_archives/w-1.tar.gz" 5,
                Event.mkdir "_unpacked_archives",
                Event.noticeUnpacking "w" "_archives/w-1.tar.gz" "_unpacked_archives",
                Event.tarExtract "_archives/w-1.tar.gz" "_unpacked_archives",
                Event.gapExecCall
                  "ValidatePackagesArchive(\\\"_unpacked_archives/w-1\\\", \\\"w\\\");"
                  "gap _tools/validate_package.g",
                Event.noticeValidatedOk "w"]) ∧
        ((testEnv true ["w-1"] 0).gapExit (mainGapCmd (testEnv true ["w-1"] 0) "w")
            (gapProg (testEnv true ["w-1"] 0)) = 0 →
          Event.noticeValidatedOk "w" ∈
            [Event.download "w" "u/w-1.tar.gz" "_archives/w-1.tar.gz" 5,
              Event.mkdir "_unpacked_archives",
              Event.noticeUnpacking "w" "_archives/w-1.tar.gz" "_unpacked_archives",
              Event.tarExtract "_archives/w-1.tar.gz" "_unpacked_archives",
              Event.gapExecCall
                "ValidatePackagesArchive(\\\"_unpacked_archives/w-1\\\", \\\"w\\\");"
                "gap _tools/validate_package.g",
              Event.noticeValidatedOk "w"] ∧
            Event.warnValidationFailed "w" ∉
              [Event.download "w" "u/w-1.tar.gz" "_archives/w-1.tar.gz" 5,
                Event.mkdir "_unpacked_archives",
                Event.noticeUnpacking "w" "_archives/w-1.tar.gz" "_unpacked_archives",
                Event.tarExtract "_archives/w-1.tar.gz" "_unpacked_archives",
                Event.gapExecCall
                  "ValidatePackagesArchive(\\\"_unpacked_archives/w-1\\\", \\\"w\\\");"
                  "gap _tools/validate_package.g",
                Event.noticeValidatedOk "w"]))) :=
  gap_invoked_iff_field_pass (testEnv true ["w-1"] 0) "w"
    [Event.download "w" "u/w-1.tar.gz" "_archives/w-1.tar.gz" 5,
      Event.mkdir "_unpacked_archives",
      Event.noticeUnpacking "w" "_archives/w-1.tar.gz" "_unpacked_archives",
      Event.tarExtract "_archives/w-1.tar.gz" "_unpacked_archives",
      Event.gapExecCall
        "ValidatePackagesArchive(\\\"_unpacked_archives/w-1\\\", \\\"w\\\");"
        "gap _tools/validate_package.g",
      Event.noticeValidatedOk "w"] (by rfl)

/-- C7: every `main` run calls the downloader with the URL
`ArchiveURL ++ <first space-separated entry of ArchiveFormats>`, the staged
path `_archives/<last "/"-separated segment of ArchiveURL><format>`, and a
retry bound of 5 tries. -/
theorem download_call_shape (env : Env) (pkg_name : String) :
    Event.download pkg_name
        ((env.metadata pkg_name).ArchiveURL ++
          (pySplit (env.metadata pkg_name).ArchiveFormats ' ').headD "")
        (joinPath "_archives"
          (((pySplit (env.metadata pkg_name).ArchiveURL '/').getLastD "") ++
            (pySplit (env.metadata pkg_name).ArchiveFormats ' ').headD "")) 5 ∈
      mainTrace env pkg_name := by
  have hsh : Event.download pkg_name
      ((env.metadata pkg_name).ArchiveURL ++
        (pySplit (env.metadata pkg_name).ArchiveFormats ' ').headD "")
      (joinPath "_archives"
        (((pySplit (env.metadata pkg_name).ArchiveURL '/').getLastD "") ++
          (pySplit (env.metadata pkg_name).ArchiveFormats ' ').headD "")) 5 =
      Event.download pkg_name (mainUrl env pkg_name) (mainPackedName env pkg_name) 5 :=
    rfl
  rw [hsh, mainTrace, main_eq]
  cases hv : mainValidate env pkg_name with
  | error e => simp [mainPre]
  | ok p =>
    obtain ⟨okb, warns⟩ := p
    cases okb <;> by_cases hg : (env.gapExit (mainGapCmd env pkg_name) (gapProg env) != 0) = true <;>
      simp [hg, mainPre]

/-- C8: if every listed package's run returns (no uncaught exception — in
particular its validation may pass or fail), the batch driver performs one
full run per positional argument, in argument order, concatenating their
traces; no package's validation failure aborts the later ones. -/
theorem batch_continues_after_failure (env : Env) (pkgs : List String)
    (h : ∀ p ∈ pkgs, ∃ e, main env p = Except.ok e) :
    runMain env pkgs = ((pkgs.map (fun p => mainTrace env p)).flatten, true) := by
  induction pkgs with
  | nil => rfl
  | cons p rest ih =>
    obtain ⟨e, he⟩ := h p (by simp)
    have ht : mainTrace env p = e := by rw [mainTrace, he]
    have ih' := ih (fun q hq => h q (by simp [hq]))
    simp only [runMain, he, ih', List.map_cons, List.flatten_cons, ht]

/-- C8 witness: a batch of two packages whose validations both fail (missing
`meta.json.old`) still runs both, in order. -/
theorem batch_continues_after_failure_witness :
    runMain (testEnv false ["w-1"] 0) ["w", "w"] =
      ((["w", "w"].map (fun p => mainTrace (testEnv false ["w-1"] 0) p)).flatten,
        true) :=
  batch_continues_after_failure (testEnv false ["w-1"] 0) ["w", "w"]
    (fun p hp => by
      have hp' : p = "w" := by simpa using hp
      subst hp'
      exact ⟨_, rfl⟩)

/-- C10: when no staging-directory entry matches the package name, the
resolver returns `None`, and the subsequent `validate_package` call raises
(`TypeError` from `os.path.join(None, ...)`) instead of returning a pass/fail
result, so `main` ends in an error after the pre-validation events. -/
theorem no_match_validate_crashes (env : Env) (pkg_name : String)
    (h : (env.listdir "_unpacked_archives").find?
        (fun x => name_matches pkg_name x) = none) :
    (unpacked_archive_name env.listdir "_unpacked_archives" pkg_name).1 = none ∧
    validate_package env pkg_name
        (unpacked_archive_name env.listdir "_unpacked_archives" pkg_name).1
        (mainPackedName env pkg_name) (mainPkgJson env pkg_name) =
      Except.error () ∧
    main env pkg_name = Except.error (mainPre env pkg_name) := by
  have h1 : (unpacked_archive_name env.listdir "_unpacked_archives" pkg_name).1 =
      none := by
    rw [unpacked_archive_name, h]
  refine ⟨h1, ?_, ?_⟩
  · rw [h1, validate_package_none_eq]
  · have hv : mainValidate env pkg_name = Except.error () := by
      rw [mainValidate, mainResolve, h1, validate_package_none_eq]
    rw [main_eq, hv]

/-- C10 witness: an empty staging directory — the run raises. -/
theorem no_match_validate_crashes_witness :
    (unpacked_archive_name (testEnv true [] 0).listdir "_unpacked_archives" "w").1 =
        none ∧
      validate_package (testEnv true [] 0) "w"
          (unpacked_archive_name (testEnv true [] 0).listdir "_unpacked_archives" "w").1
          (mainPackedName (testEnv true [] 0) "w")
          (mainPkgJson (testEnv true [] 0) "w") = Except.error () ∧
      main (testEnv true [] 0) "w" =
        Except.error (mainPre (testEnv true [] 0) "w") :=
  no_match_validate_crashes (testEnv true [] 0) "w" (by rfl)

end PackageDistro
